import Mathlib

/- Verification of the scope guard component of ricab/scope_guard and of its
   Conan packaging recipe (src/conanfile.py). The guard itself is a single
   C++ header that the repository snapshot does not include under src/, so
   the guard data model and its operations are modelled from the design
   specification; the packaging recipe is embedded from src/conanfile.py. -/

namespace ScopeGuardSpec

/-- Modelled from the spec: the Guard entity of the missing scope_guard.hpp.
A guard owns one zero-argument callable, represented here by an identifier
of type α, and tracks one boolean active flag. -/
structure Guard (α : Type) where
  action : α
  active : Bool

/-- Modelled from the spec: the factory makeGuard binds a callable and
yields a new guard with active = true owning the callable. -/
def makeGuard (f : α) : Guard α :=
  ⟨f, true⟩

/-- Modelled from the spec: construction stores the callable and has no
other side effect; the second component is the list of actions invoked
during construction, which is empty. -/
def constructGuard (f : α) : Guard α × List α :=
  (makeGuard f, [])

/-- Modelled from the spec: dismiss sets active to false and does nothing
else; dismissing an already dismissed guard is a no-op. -/
def Guard.dismiss (g : Guard α) : Guard α :=
  { g with active := false }

/-- Modelled from the spec: move transfer. The destination takes over the
stored callable and the active value of the source; the source becomes
active = false immediately as part of the transfer. The first component is
the destination, the second the moved-from source. -/
def Guard.moveOut (g : Guard α) : Guard α × Guard α :=
  (⟨g.action, g.active⟩, ⟨g.action, false⟩)

/-- Modelled from the spec: destruction at scope end invokes the action if
and only if the guard is active; the result is the list of actions invoked
by this destruction. -/
def Guard.destroy (g : Guard α) : List α :=
  if g.active then [g.action] else []

/-- Modelled from the spec: the ways control can leave a scope. -/
inductive ExitMode
  | normal
  | earlyReturn
  | errorUnwind
deriving DecidableEq

/-- Modelled from the spec: whichever way control leaves the scope, the
guard local to that scope is destroyed. -/
def scopeExit (g : Guard α) (_m : ExitMode) : List α :=
  g.destroy

/-- Modelled from the spec: the operations that can be applied to the
current holder of the obligation along an ownership chain. -/
inductive ChainOp
  | move
  | dismiss
deriving DecidableEq

/-- Modelled from the spec: running a sequence of chain operations starting
from one guard. The first component collects the moved-from shells in the
order they were produced; the second is the guard currently holding the
obligation. -/
def runChain (g : Guard α) : List ChainOp → List (Guard α) × Guard α
  | [] => ([], g)
  | ChainOp.move :: ops =>
      let p := g.moveOut
      let r := runChain p.1 ops
      (p.2 :: r.1, r.2)
  | ChainOp.dismiss :: ops => runChain g.dismiss ops

/-- Modelled from the spec: the total invocation trace of a whole chain:
every moved-from shell is destroyed, and finally the current guard is
destroyed. -/
def chainTrace (g : Guard α) (ops : List ChainOp) : List α :=
  ((runChain g ops).1.map Guard.destroy).flatten ++ (runChain g ops).2.destroy

/-- Modelled from the spec: the states of the per-guard state machine. -/
inductive GState
  | Active
  | Dismissed
  | MovedFrom
  | Destroyed
deriving DecidableEq

/-- Modelled from the spec: the events of the per-guard state machine. -/
inductive GEvent
  | dismissEv
  | moveOutEv
  | destroyEv
deriving DecidableEq

/-- Modelled from the spec: the transition function of the per-guard state
machine; the boolean records whether the bound action is invoked on the
transition. Events not listed by the spec leave the state unchanged and
invoke nothing. -/
def gstep : GState → GEvent → GState × Bool
  | GState.Active, GEvent.dismissEv => (GState.Dismissed, false)
  | GState.Active, GEvent.moveOutEv => (GState.MovedFrom, false)
  | GState.Active, GEvent.destroyEv => (GState.Destroyed, true)
  | GState.Dismissed, GEvent.destroyEv => (GState.Destroyed, false)
  | GState.MovedFrom, GEvent.destroyEv => (GState.Destroyed, false)
  | s, _ => (s, false)

/-- Modelled from the spec: a block with two unnamed guards created in
sequence; on normal exit the guards are destroyed in reverse order of
construction, so the trace is the destruction of the second guard followed
by the destruction of the first. -/
def twoGuardBlockTrace (a1 a2 : α) : List α :=
  (makeGuard a2).destroy ++ (makeGuard a1).destroy

/-- One increment of the counter named i in a family of counters. -/
def bump [DecidableEq ι] (c : ι → Nat) (i : ι) : ι → Nat :=
  fun j => if j = i then c j + 1 else c j

/-- Run an invocation trace of counter increments over a counter family. -/
def runCounters [DecidableEq ι] (tr : List ι) (c : ι → Nat) : ι → Nat :=
  tr.foldl bump c

end ScopeGuardSpec

namespace ConanPkg

/-- The static metadata a Conan recipe declares as class attributes. -/
structure ConanRecipe where
  name : String
  version : String
  license : String
  author : String
  url : String
  homepage : String
  description : String
  topics : List String
  exports_sources : List String
  no_copy_source : Bool

/-- The recipe declared by class ScopeguardConan in src/conanfile.py. -/
def scopeguardConan : ConanRecipe :=
  { name := "scope_guard"
    version := "0.2.4-dev.1"
    license := "The Unlicense"
    author := "Ricardo Abreu ricab@ricabhome.org"
    url := "https://github.com/ricab/scope_guard"
    homepage := "https://ricab.github.io/scope_guard/"
    description := "A modern C++ scope guard that is easy to use but hard to misuse."
    topics := ["scope guard", "RAII", "resource management", "idioms",
               "header-only", "single-file"]
    exports_sources := ["scope_guard.hpp"]
    no_copy_source := true }

/-- A file tree: an association list from file name to file content. -/
abbrev FileTree : Type :=
  List (String × String)

/-- The copy helper of Conan as used by the recipe: copy every file of the
source tree whose name matches the pattern into the destination directory,
leaving contents untouched. -/
def copyFiles (src : FileTree) (pat dst : String) : FileTree :=
  (src.filter (fun p => p.1 == pat)).map (fun p => (dst ++ "/" ++ p.1, p.2))

namespace ScopeguardConan

/-- The body of ScopeguardConan.package in src/conanfile.py: the single
call self.copy of the file scope_guard.hpp with destination include. -/
def package (src : FileTree) : FileTree :=
  copyFiles src "scope_guard.hpp" "include"

end ScopeguardConan

/-- The source tree Conan exports for this recipe: exactly the files named
by exports_sources, here the single header scope_guard.hpp with some
content c. -/
def exportedTree (c : String) : FileTree :=
  [("scope_guard.hpp", c)]

/-- With no_copy_source = True the sources are consumed in place: the
build-and-package step of this recipe reads the exported source tree,
leaves it unchanged, and produces the package tree beside it. The recipe
declares no build method, so the only package-producing step is package. -/
def buildAndPackage (src : FileTree) : FileTree × FileTree :=
  (src, ScopeguardConan.package src)

end ConanPkg

namespace ScopeGuardSpec

/- Helper lemmas about chains. -/

/-- Every moved-from shell left behind by a chain is inactive. -/
theorem runChain_shells_inactive (ops : List ChainOp) :
    ∀ (g : Guard α) s, s ∈ (runChain g ops).1 → s.active = false := by
  induction ops with
  | nil => intro g s hs; simp [runChain] at hs
  | cons op ops ih =>
      intro g s hs
      cases op with
      | move =>
          simp [runChain, Guard.moveOut] at hs
          rcases hs with h | h
          · rw [h]
          · exact ih _ s h
      | dismiss => exact ih _ s hs

/-- Destroying all moved-from shells of a chain invokes nothing. -/
theorem runChain_shells_trace_nil (ops : List ChainOp) (g : Guard α) :
    ((runChain g ops).1.map Guard.destroy).flatten = [] := by
  apply List.flatten_eq_nil_iff.mpr
  intro l hl
  rcases List.mem_map.mp hl with ⟨s, hs, hdl⟩
  have hact := runChain_shells_inactive ops g s hs
  rw [← hdl]
  simp [Guard.destroy, hact]

/-- The whole-chain trace equals the destruction of the final guard. -/
theorem chainTrace_eq_final (ops : List ChainOp) (g : Guard α) :
    chainTrace g ops = (runChain g ops).2.destroy := by
  unfold chainTrace
  rw [runChain_shells_trace_nil]
  simp

/-- If no dismiss occurs, the final guard of the chain equals the initial
guard: moves preserve the action and the active value. -/
theorem runChain_final_no_dismiss (ops : List ChainOp) :
    ∀ (g : Guard α), ChainOp.dismiss ∉ ops → (runChain g ops).2 = g := by
  induction ops with
  | nil => intro g _; rfl
  | cons op ops ih =>
      intro g hnd
      cases op with
      | move =>
          have hnd2 : ChainOp.dismiss ∉ ops := by
            intro hc; exact hnd (List.mem_cons_of_mem _ hc)
          simp only [runChain, Guard.moveOut]
          exact ih _ hnd2
      | dismiss =>
          exact absurd (List.mem_cons_self _ _) hnd

/-- The final guard of a chain always carries the original action. -/
theorem runChain_final_action (ops : List ChainOp) :
    ∀ (g : Guard α), (runChain g ops).2.action = g.action := by
  induction ops with
  | nil => intro g; rfl
  | cons op ops ih =>
      intro g
      cases op with
      | move => simpa [runChain, Guard.moveOut] using ih ⟨g.action, g.active⟩
      | dismiss => simpa [Guard.dismiss] using ih g.dismiss

/-- C1: for every callable f, constructing a guard with makeGuard f and
letting it reach the end of its scope without dismiss or move invokes f
exactly once, whichever way control leaves the scope (normal fall-through,
early return, or error unwinding); construction itself invokes nothing. -/
theorem makeGuard_scopeExit_invokes_once (f : α) (m : ExitMode) :
    (constructGuard f).2 = [] ∧ scopeExit (constructGuard f).1 m = [f] :=
  ⟨rfl, rfl⟩

/-- C2: along any ownership chain started by makeGuard f, the action is
invoked at most once in total (the whole-chain trace is empty or the
singleton f); when no guard in the chain is dismissed it is invoked exactly
once, at the destruction of the last guard, which is then the unique holder
of active = true while every moved-from shell invokes nothing; and the
state machine invokes only on the transition from Active to Destroyed. -/
theorem chain_invokes_at_most_once (f : α) (ops : List ChainOp) :
    (chainTrace (makeGuard f) ops = [] ∨ chainTrace (makeGuard f) ops = [f]) ∧
    (ChainOp.dismiss ∉ ops →
      ((runChain (makeGuard f) ops).1.map Guard.destroy).flatten = [] ∧
      (runChain (makeGuard f) ops).2.active = true ∧
      (runChain (makeGuard f) ops).2.destroy = [f] ∧
      chainTrace (makeGuard f) ops = [f]) ∧
    (∀ s e, (gstep s e).2 = true →
      s = GState.Active ∧ (gstep s e).1 = GState.Destroyed) := by
  refine ⟨?_, ?_, ?_⟩
  · rw [chainTrace_eq_final]
    have hact := runChain_final_action ops (makeGuard f)
    cases h : (runChain (makeGuard f) ops).2.active with
    | false => exact Or.inl (by simp [Guard.destroy, h])
    | true =>
        refine Or.inr ?_
        have hd : (runChain (makeGuard f) ops).2.destroy =
            [(runChain (makeGuard f) ops).2.action] := by
          simp [Guard.destroy, h]
        rw [hd, hact]
        rfl
  · intro hnd
    have hfin := runChain_final_no_dismiss ops (makeGuard f) hnd
    refine ⟨runChain_shells_trace_nil ops _, ?_, ?_, ?_⟩
    · rw [hfin]; rfl
    · rw [hfin]; rfl
    · rw [chainTrace_eq_final, hfin]; rfl
  · intro s e h
    cases s <;> cases e <;> simp_all [gstep]

/-- C2 witness: a concrete two-move chain with no dismiss invokes the
action exactly once, and the concrete transition from Active on destroy
invokes and lands in Destroyed. -/
theorem chain_invokes_at_most_once_witness :
    ChainOp.dismiss ∉ [ChainOp.move, ChainOp.move] ∧
    chainTrace (makeGuard 7) [ChainOp.move, ChainOp.move] = [7] ∧
    (gstep GState.Active GEvent.destroyEv).2 = true ∧
    (GState.Active = GState.Active ∧
      (gstep GState.Active GEvent.destroyEv).1 = GState.Destroyed) := by
  have h := chain_invokes_at_most_once 7 [ChainOp.move, ChainOp.move]
  exact ⟨by decide, (h.2.1 (by decide)).2.2.2, by decide,
         h.2.2 GState.Active GEvent.destroyEv (by decide)⟩

/-- C3: makeGuard f followed by dismiss followed by scope end invokes f
zero times; in general a dismissed guard invokes nothing at destruction. -/
theorem dismiss_then_scope_end_invokes_nothing (f : α) (m : ExitMode)
    (g : Guard α) :
    scopeExit (makeGuard f).dismiss m = [] ∧ g.dismiss.destroy = [] :=
  ⟨rfl, rfl⟩

/-- C4: moving guard A into a new guard B sets the active flag of A to
false as part of the transfer, so destroying A invokes f zero times, and
destroying B afterwards, with no further dismiss or move, invokes f exactly
once. -/
theorem move_transfer_exactly_once (f : α) :
    (makeGuard f).moveOut.2.active = false ∧
    (makeGuard f).moveOut.2.destroy = [] ∧
    (makeGuard f).moveOut.1.destroy = [f] :=
  ⟨rfl, rfl, rfl⟩

/-- C5: dismiss is idempotent: dismissing twice leaves the guard in the
same state as dismissing once, namely active = false, and in both cases
destruction invokes nothing. -/
theorem dismiss_idempotent (g : Guard α) :
    g.dismiss.dismiss = g.dismiss ∧
    g.dismiss.active = false ∧
    g.dismiss.destroy = [] ∧
    g.dismiss.dismiss.destroy = [] :=
  ⟨rfl, rfl, rfl, rfl⟩

/-- C6: two unnamed guards created in sequence in one block, each bound to
an action incrementing a distinct counter: on normal exit the guard created
second runs strictly before the guard created first, and both counters end
at exactly one. -/
theorem two_unnamed_guards_reverse_order (a1 a2 : Nat) (h : a1 ≠ a2) :
    twoGuardBlockTrace a1 a2 = [a2, a1] ∧
    runCounters (twoGuardBlockTrace a1 a2) (fun _ => 0) a1 = 1 ∧
    runCounters (twoGuardBlockTrace a1 a2) (fun _ => 0) a2 = 1 := by
  refine ⟨rfl, ?_, ?_⟩ <;>
    simp [runCounters, twoGuardBlockTrace, bump, makeGuard, Guard.destroy,
          List.foldl, h, Ne.symm h]

/-- C6 witness: the block with counters labelled 1 and 2. -/
theorem two_unnamed_guards_reverse_order_witness :
    (1 : Nat) ≠ 2 ∧
    (twoGuardBlockTrace 1 2 = [2, 1] ∧
     runCounters (twoGuardBlockTrace 1 2) (fun _ => 0) 1 = 1 ∧
     runCounters (twoGuardBlockTrace 1 2) (fun _ => 0) 2 = 1) :=
  ⟨by decide, two_unnamed_guards_reverse_order 1 2 (by decide)⟩

/-- C7: construction has no side effect beyond storing the callable: the
construction trace is empty, f is not invoked, and the resulting guard has
active = true and owns the stored f. -/
theorem construction_stores_only (f : α) :
    constructGuard f = (makeGuard f, []) ∧
    (makeGuard f).active = true ∧
    (makeGuard f).action = f :=
  ⟨rfl, rfl, rfl⟩

end ScopeGuardSpec

namespace ConanPkg

/-- C8: the packaging recipe republishes the component unaltered: it
attaches the name scope_guard and a version, and its package step only
copies the one header scope_guard.hpp into the package; every file it
places in the package is the unmodified header content at
include/scope_guard.hpp. -/
theorem recipe_republishes_unaltered :
    scopeguardConan.name = "scope_guard" ∧
    scopeguardConan.version = "0.2.4-dev.1" ∧
    (∀ c, ScopeguardConan.package (exportedTree c) =
      [("include/scope_guard.hpp", c)]) ∧
    (∀ (src : FileTree) (p : String × String), p ∈ ScopeguardConan.package src →
      p.1 = "include/scope_guard.hpp" ∧ ("scope_guard.hpp", p.2) ∈ src) := by
  refine ⟨rfl, rfl, fun c => rfl, ?_⟩
  intro src p hp
  unfold ScopeguardConan.package copyFiles at hp
  rcases List.mem_map.mp hp with ⟨q, hq, hpq⟩
  rcases List.mem_filter.mp hq with ⟨hqsrc, hqname⟩
  have hname : q.1 = "scope_guard.hpp" := eq_of_beq hqname
  subst hpq
  refine ⟨?_, ?_⟩
  · show "include" ++ "/" ++ q.1 = "include/scope_guard.hpp"
    rw [hname]
    rfl
  · show ("scope_guard.hpp", q.2) ∈ src
    rw [← hname]
    exact hqsrc

/-- C8 witness: packaging a concrete one-file tree. -/
theorem recipe_republishes_unaltered_witness :
    ("include/scope_guard.hpp", "content") ∈
      ScopeguardConan.package [("scope_guard.hpp", "content")] ∧
    (("include/scope_guard.hpp", "content").1 = "include/scope_guard.hpp" ∧
     ("scope_guard.hpp", ("include/scope_guard.hpp", "content").2) ∈
       [("scope_guard.hpp", "content")]) := by
  have h := recipe_republishes_unaltered
  exact ⟨by decide, h.2.2.2 [("scope_guard.hpp", "content")]
    ("include/scope_guard.hpp", "content") (by decide)⟩

/-- C9: the package operation copies exactly one file: packaging the
exported tree yields the single entry include/scope_guard.hpp with the
content of the header, and exports_sources lists only scope_guard.hpp. -/
theorem package_copies_exactly_one_file :
    scopeguardConan.exports_sources = ["scope_guard.hpp"] ∧
    (∀ c, ScopeguardConan.package (exportedTree c) =
      [("include/scope_guard.hpp", c)]) ∧
    (∀ c, (ScopeguardConan.package (exportedTree c)).length = 1) :=
  ⟨rfl, fun _ => rfl, fun _ => rfl⟩

/-- C10: the recipe sets no_copy_source = True and packaging treats the
exported source as read-only: the build-and-package step returns the
source tree unchanged. -/
theorem no_copy_source_frame :
    scopeguardConan.no_copy_source = true ∧
    ∀ src, (buildAndPackage src).1 = src :=
  ⟨rfl, fun _ => rfl⟩

end ConanPkg
